import Mathlib

/-!
# Verification of the applied-machine-learning repository against its specification

The repository consists of four documents:
* a scikit-learn Pipelines notebook (two code cells, "Pipeline 1" and "Pipeline 2"),
* an R-markdown document with eight non-linear classification recipes on the iris dataset,
* a notebook on Truncated Backpropagation Through Time (TBPTT) whose only code cell is
  the mathematical formula `yhat(t) = f(X(t), X(t-1), ... X(t-n))`,
* a Keras word-embedding notebook whose final listing loads the GloVe embedding file
  line by line and builds an `embedding_matrix` aligned with a `Tokenizer`'s `word_index`.

Two embeddings are developed below.

1. A statement-level embedding of every document: each statement of each code cell is
   recorded with the variables it defines and reads, its external effect, and the library
   call it performs (with the keyword-argument names used at the call site).  Structural
   claims of the specification (straight-line code, error handling, effects, concurrency,
   document independence) are settled against this embedding.

2. A semantic embedding of the only repository-authored computations: the GloVe
   loading loop (`values = line.split(); word = values[0]; coefs = asarray(values[1:]);
   embeddings_index[word] = coefs`) and the weight-matrix construction loop
   (`for word, i in t.word_index.items(): if embeddings_index.get(word) is not None:
   embedding_matrix[i] = ...`).  Functional claims about those loops are settled
   against this embedding.
-/

namespace AppliedML

/-- Externally observable effect of one statement of a document. -/
inductive Eff where
  | readsFile (path : String)
  | readsUrl (url : String)
  | writesFile (path : String)
  | stdout
  | pureEff

/-- A call into an imported library: the library providing the callee, the callee's
name, and the names of the keyword arguments used at the call site. -/
structure Call where
  lib : String
  fn : String
  kwargs : List String

/-- A statement of a document.  `atom` is a straight-line statement (an assignment or
an expression statement) with the variables it defines and reads, its effect and its
library call, if any; `forLoop` and `ifBranch` carry their bodies; `tryExcept` and
`raiseStmt` never occur in this repository but are part of the statement language so
that their absence is a checkable property rather than one true by construction;
`formulaCell` is a notebook code cell holding a mathematical formula that is not
executable code. -/
inductive Stmt where
  | atom (defines : List String) (reads : List String) (eff : Eff) (call : Option Call)
  | forLoop (reads : List String) (body : List Stmt)
  | ifBranch (reads : List String) (body : List Stmt)
  | tryExcept (body handler : List Stmt)
  | raiseStmt
  | formulaCell (text : String)

/-- A document of the repository: its title, the libraries it imports, and the
statements of its code cells in order. -/
structure Doc where
  name : String
  imports : List String
  stmts : List Stmt

mutual

/-- `true` iff the statement contains no `try`/`except` and no `raise`, recursively. -/
def Stmt.errorFree : Stmt → Bool
  | .atom _ _ _ _ => true
  | .forLoop _ body => stmtsErrorFree body
  | .ifBranch _ body => stmtsErrorFree body
  | .tryExcept _ _ => false
  | .raiseStmt => false
  | .formulaCell _ => true

/-- `Stmt.errorFree` over a statement list. -/
def stmtsErrorFree : List Stmt → Bool
  | [] => true
  | s :: rest => s.errorFree && stmtsErrorFree rest

end

mutual

/-- The effects a statement can perform, collected recursively. -/
def Stmt.effectsOf : Stmt → List Eff
  | .atom _ _ e _ => [e]
  | .forLoop _ body => stmtsEffects body
  | .ifBranch _ body => stmtsEffects body
  | .tryExcept body handler => stmtsEffects body ++ stmtsEffects handler
  | .raiseStmt => []
  | .formulaCell _ => []

/-- `Stmt.effectsOf` over a statement list. -/
def stmtsEffects : List Stmt → List Eff
  | [] => []
  | s :: rest => s.effectsOf ++ stmtsEffects rest

end

mutual

/-- The library calls a statement performs, collected recursively. -/
def Stmt.callsOf : Stmt → List Call
  | .atom _ _ _ (some c) => [c]
  | .atom _ _ _ none => []
  | .forLoop _ body => stmtsCalls body
  | .ifBranch _ body => stmtsCalls body
  | .tryExcept body handler => stmtsCalls body ++ stmtsCalls handler
  | .raiseStmt => []
  | .formulaCell _ => []

/-- `Stmt.callsOf` over a statement list. -/
def stmtsCalls : List Stmt → List Call
  | [] => []
  | s :: rest => s.callsOf ++ stmtsCalls rest

end

mutual

/-- Number of `for` loops in a statement, counted recursively. -/
def Stmt.loopCount : Stmt → Nat
  | .atom _ _ _ _ => 0
  | .forLoop _ body => 1 + stmtsLoopCount body
  | .ifBranch _ body => stmtsLoopCount body
  | .tryExcept body handler => stmtsLoopCount body + stmtsLoopCount handler
  | .raiseStmt => 0
  | .formulaCell _ => 0

/-- `Stmt.loopCount` over a statement list. -/
def stmtsLoopCount : List Stmt → Nat
  | [] => 0
  | s :: rest => s.loopCount + stmtsLoopCount rest

end

mutual

/-- Number of `if` branches in a statement, counted recursively. -/
def Stmt.branchCount : Stmt → Nat
  | .atom _ _ _ _ => 0
  | .forLoop _ body => stmtsBranchCount body
  | .ifBranch _ body => 1 + stmtsBranchCount body
  | .tryExcept body handler => stmtsBranchCount body + stmtsBranchCount handler
  | .raiseStmt => 0
  | .formulaCell _ => 0

/-- `Stmt.branchCount` over a statement list. -/
def stmtsBranchCount : List Stmt → Nat
  | [] => 0
  | s :: rest => s.branchCount + stmtsBranchCount rest

end

/-- A document is straight-line when every statement is an atom or a formula cell:
no repository-authored loop, branch, or error handler. -/
def Doc.straightLine (d : Doc) : Bool :=
  d.stmts.all fun s => match s with
    | .atom _ _ _ _ => true
    | .formulaCell _ => true
    | _ => false

/-- All effects of a document. -/
def Doc.effects (d : Doc) : List Eff := stmtsEffects d.stmts

/-- All library calls of a document. -/
def Doc.calls (d : Doc) : List Call := stmtsCalls d.stmts

/-- All keyword-argument names used at call sites of a document. -/
def Doc.allKwargs (d : Doc) : List String := (d.calls.map Call.kwargs).flatten

/-- The document contains no `try`/`except` and no `raise`. -/
def Doc.errorHandlingFree (d : Doc) : Bool := stmtsErrorFree d.stmts

/-- Paths of files written by the document. -/
def Doc.fileWriteTargets (d : Doc) : List String :=
  d.effects.filterMap fun e => match e with
    | .writesFile p => some p
    | _ => none

/-- Paths and URLs read by the document. -/
def Doc.readTargets (d : Doc) : List String :=
  d.effects.filterMap fun e => match e with
    | .readsFile p => some p
    | .readsUrl u => some u
    | _ => none

/-- The document contains a statement that loads a dataset or an input file:
an effect reading a file or URL, or a call to R's `data`. -/
def Doc.loadsData (d : Doc) : Bool :=
  (d.effects.any fun e => match e with
    | .readsFile _ => true
    | .readsUrl _ => true
    | _ => false) ||
  (d.calls.any fun c => c.fn == "data")

/-- The document prints something to stdout. -/
def Doc.printsOutput (d : Doc) : Bool :=
  d.effects.any fun e => match e with
    | .stdout => true
    | _ => false

/-- The document contains at least one executable statement (not a formula cell). -/
def Doc.hasExecutableCode (d : Doc) : Bool :=
  d.stmts.any fun s => match s with
    | .formulaCell _ => false
    | _ => true

/-- The document calls into at least one imported library. -/
def Doc.callsLibrary (d : Doc) : Bool := !d.calls.isEmpty

/-! ## The four documents of the repository, statement by statement -/

/-- URL of the pima-indians-diabetes CSV read by both pipeline cells. -/
def pimaUrl : String :=
  "https://raw.githubusercontent.com/jbrownlee/Datasets/master/pima-indians-diabetes.data.csv"

/-- "Pipeline 1: Data Preparation and Modeling" cell of the pipelines notebook:
read_csv of the pima CSV, slicing of X and Y, a two-step Pipeline
(StandardScaler, LinearDiscriminantAnalysis), 10-fold cross-validation, print of
the mean score. -/
def pipelineCell1 : List Stmt := [
  .atom ["url"] [] .pureEff none,
  .atom ["names"] [] .pureEff none,
  .atom ["dataframe"] ["url", "names"] (.readsUrl pimaUrl)
    (some ⟨"pandas", "read_csv", ["names"]⟩),
  .atom ["array"] ["dataframe"] .pureEff none,
  .atom ["X"] ["array"] .pureEff none,
  .atom ["Y"] ["array"] .pureEff none,
  .atom ["estimators"] [] .pureEff none,
  .atom ["estimators"] ["estimators"] .pureEff
    (some ⟨"sklearn.preprocessing", "StandardScaler", []⟩),
  .atom ["estimators"] ["estimators"] .pureEff
    (some ⟨"sklearn.discriminant_analysis", "LinearDiscriminantAnalysis", []⟩),
  .atom ["model"] ["estimators"] .pureEff (some ⟨"sklearn.pipeline", "Pipeline", []⟩),
  .atom ["seed"] [] .pureEff none,
  .atom ["kfold"] ["seed"] .pureEff
    (some ⟨"sklearn.model_selection", "KFold", ["n_splits", "random_state"]⟩),
  .atom ["results"] ["model", "X", "Y", "kfold"] .pureEff
    (some ⟨"sklearn.model_selection", "cross_val_score", ["cv"]⟩),
  .atom [] ["results"] .stdout (some ⟨"builtins", "print", []⟩)]

/-- "Pipeline 2: Feature Extraction and Modeling" cell of the pipelines notebook:
read_csv of the pima CSV, a FeatureUnion of PCA(n_components=3) and
SelectKBest(k=6), a Pipeline ending in LogisticRegression, 10-fold
cross-validation, print of the mean score. -/
def pipelineCell2 : List Stmt := [
  .atom ["url"] [] .pureEff none,
  .atom ["names"] [] .pureEff none,
  .atom ["dataframe"] ["url", "names"] (.readsUrl pimaUrl)
    (some ⟨"pandas", "read_csv", ["names"]⟩),
  .atom ["array"] ["dataframe"] .pureEff none,
  .atom ["X"] ["array"] .pureEff none,
  .atom ["Y"] ["array"] .pureEff none,
  .atom ["features"] [] .pureEff none,
  .atom ["features"] ["features"] .pureEff
    (some ⟨"sklearn.decomposition", "PCA", ["n_components"]⟩),
  .atom ["features"] ["features"] .pureEff
    (some ⟨"sklearn.feature_selection", "SelectKBest", ["k"]⟩),
  .atom ["feature_union"] ["features"] .pureEff
    (some ⟨"sklearn.pipeline", "FeatureUnion", []⟩),
  .atom ["estimators"] [] .pureEff none,
  .atom ["estimators"] ["estimators", "feature_union"] .pureEff none,
  .atom ["estimators"] ["estimators"] .pureEff
    (some ⟨"sklearn.linear_model", "LogisticRegression", []⟩),
  .atom ["model"] ["estimators"] .pureEff (some ⟨"sklearn.pipeline", "Pipeline", []⟩),
  .atom ["seed"] [] .pureEff none,
  .atom ["kfold"] ["seed"] .pureEff
    (some ⟨"sklearn.model_selection", "KFold", ["n_splits", "random_state"]⟩),
  .atom ["results"] ["model", "X", "Y", "kfold"] .pureEff
    (some ⟨"sklearn.model_selection", "cross_val_score", ["cv"]⟩),
  .atom [] ["results"] .stdout (some ⟨"builtins", "print", []⟩)]

/-- The scikit-learn Pipelines notebook. -/
def pipelinesDoc : Doc :=
  ⟨"automate-machine-learning-workflows-with-pipelines",
   ["pandas", "sklearn.model_selection", "sklearn.preprocessing", "sklearn.pipeline",
    "sklearn.discriminant_analysis", "sklearn.linear_model", "sklearn.decomposition",
    "sklearn.feature_selection"],
   pipelineCell1 ++ pipelineCell2⟩

/-- One recipe chunk of the R-markdown document.  Every chunk has the same shape:
library(pkg); data(iris); fit <- fitFn(Species~., data=iris, ...); summary(fit);
predictions <- predict(fit, iris[,1:4], ...); table(predictions, iris$Species).
`fitPkg`/`fitFn` are the package and function fitting the model, `fitKw` the keyword
arguments of the fit call, `predKw` those of the predict call. -/
def rChunk (fitPkg fitFn : String) (fitKw predKw : List String) : List Stmt := [
  .atom [] [] .pureEff (some ⟨"base", "library", []⟩),
  .atom ["iris"] [] .pureEff (some ⟨"datasets", "data", []⟩),
  .atom ["fit"] ["iris"] .pureEff (some ⟨fitPkg, fitFn, fitKw⟩),
  .atom [] ["fit"] .stdout (some ⟨"base", "summary", []⟩),
  .atom ["predictions"] ["fit", "iris"] .pureEff (some ⟨"stats", "predict", predKw⟩),
  .atom [] ["predictions", "iris"] .stdout (some ⟨"base", "table", []⟩)]

/-- The R-markdown document: eight classification recipes on the iris dataset. -/
def rDoc : Doc :=
  ⟨"nonlinear_classification_in_R",
   ["mda", "MASS", "klaR", "nnet", "kernlab", "caret", "e1071"],
   rChunk "mda" "mda" [] [] ++
   rChunk "MASS" "qda" [] [] ++
   rChunk "klaR" "rda" ["gamma", "lambda"] [] ++
   rChunk "nnet" "nnet" ["size", "decay", "maxit"] ["type"] ++
   rChunk "mda" "fda" [] [] ++
   rChunk "kernlab" "ksvm" [] ["type"] ++
   rChunk "caret" "knn3" ["k"] ["type"] ++
   rChunk "e1071" "naiveBayes" [] []⟩

/-- The TBPTT notebook.  It is prose; its only code cell holds the formula
`yhat(t) = f(X(t), X(t-1), X(t-2), ... X(t-n))`, which is not executable code
(in Python it is a syntax error: an assignment to a call). -/
def tbpttDoc : Doc :=
  ⟨"how-to-prepare-sequence-prediction-for-truncated-bptt",
   [],
   [.formulaCell "yhat(t) = f(X(t), X(t-1), X(t-2), ... X(t-n))"]⟩

/-- First complete listing of the Keras word-embedding notebook: learn an embedding
on ten inline documents, with a one_hot list comprehension (modelled as the loop it
is), pad_sequences, an Embedding/Flatten/Dense model, fit, evaluate, prints. -/
def kerasCell1 : List Stmt := [
  .atom ["docs"] [] .pureEff none,
  .atom ["labels"] [] .pureEff (some ⟨"numpy", "array", []⟩),
  .atom ["vocab_size"] [] .pureEff none,
  .forLoop ["docs"] [
    .atom ["encoded_docs"] ["docs", "vocab_size"] .pureEff
      (some ⟨"keras.preprocessing.text", "one_hot", []⟩)],
  .atom [] ["encoded_docs"] .stdout (some ⟨"builtins", "print", []⟩),
  .atom ["max_length"] [] .pureEff none,
  .atom ["padded_docs"] ["encoded_docs", "max_length"] .pureEff
    (some ⟨"keras.preprocessing.sequence", "pad_sequences", ["maxlen", "padding"]⟩),
  .atom [] ["padded_docs"] .stdout (some ⟨"builtins", "print", []⟩),
  .atom ["model"] [] .pureEff (some ⟨"keras.models", "Sequential", []⟩),
  .atom [] ["model", "vocab_size", "max_length"] .pureEff
    (some ⟨"keras.layers", "Embedding", ["input_length"]⟩),
  .atom [] ["model"] .pureEff (some ⟨"keras.layers", "Flatten", []⟩),
  .atom [] ["model"] .pureEff (some ⟨"keras.layers", "Dense", ["activation"]⟩),
  .atom [] ["model"] .pureEff
    (some ⟨"keras.models", "compile", ["optimizer", "loss", "metrics"]⟩),
  .atom [] ["model"] .stdout (some ⟨"builtins", "print", []⟩),
  .atom [] ["model", "padded_docs", "labels"] .pureEff
    (some ⟨"keras.models", "fit", ["epochs", "verbose"]⟩),
  .atom ["loss", "accuracy"] ["model", "padded_docs", "labels"] .pureEff
    (some ⟨"keras.models", "evaluate", ["verbose"]⟩),
  .atom [] ["accuracy"] .stdout (some ⟨"builtins", "print", []⟩)]

/-- Second complete listing of the Keras word-embedding notebook (pre-trained GloVe):
Tokenizer on the ten documents, vocab_size = len(t.word_index) + 1, the GloVe file
loading loop (split, values[0], asarray, dict assignment), the weight-matrix
construction loop with its `is not None` branch, and the frozen-Embedding model. -/
def kerasCell2 : List Stmt := [
  .atom ["docs"] [] .pureEff none,
  .atom ["labels"] [] .pureEff (some ⟨"numpy", "array", []⟩),
  .atom ["t"] [] .pureEff (some ⟨"keras.preprocessing.text", "Tokenizer", []⟩),
  .atom [] ["t", "docs"] .pureEff (some ⟨"keras.preprocessing.text", "fit_on_texts", []⟩),
  .atom ["vocab_size"] ["t"] .pureEff none,
  .atom ["encoded_docs"] ["t", "docs"] .pureEff
    (some ⟨"keras.preprocessing.text", "texts_to_sequences", []⟩),
  .atom [] ["encoded_docs"] .stdout (some ⟨"builtins", "print", []⟩),
  .atom ["max_length"] [] .pureEff none,
  .atom ["padded_docs"] ["encoded_docs", "max_length"] .pureEff
    (some ⟨"keras.preprocessing.sequence", "pad_sequences", ["maxlen", "padding"]⟩),
  .atom [] ["padded_docs"] .stdout (some ⟨"builtins", "print", []⟩),
  .atom ["embeddings_index"] [] .pureEff none,
  .atom ["f"] [] (.readsFile "glove.6B.100d.txt") (some ⟨"builtins", "open", []⟩),
  .forLoop ["f"] [
    .atom ["values"] ["line"] .pureEff (some ⟨"str", "split", []⟩),
    .atom ["word"] ["values"] .pureEff none,
    .atom ["coefs"] ["values"] .pureEff (some ⟨"numpy", "asarray", ["dtype"]⟩),
    .atom ["embeddings_index"] ["embeddings_index", "word", "coefs"] .pureEff none],
  .atom [] ["f"] .pureEff (some ⟨"builtins", "close", []⟩),
  .atom [] ["embeddings_index"] .stdout (some ⟨"builtins", "print", []⟩),
  .atom ["embedding_matrix"] ["vocab_size"] .pureEff (some ⟨"numpy", "zeros", []⟩),
  .forLoop ["t"] [
    .atom ["embedding_vector"] ["embeddings_index", "word"] .pureEff
      (some ⟨"dict", "get", []⟩),
    .ifBranch ["embedding_vector"] [
      .atom ["embedding_matrix"] ["embedding_matrix", "i", "embedding_vector"]
        .pureEff none]],
  .atom ["model"] [] .pureEff (some ⟨"keras.models", "Sequential", []⟩),
  .atom ["e"] ["vocab_size", "embedding_matrix"] .pureEff
    (some ⟨"keras.layers", "Embedding", ["weights", "input_length", "trainable"]⟩),
  .atom [] ["model", "e"] .pureEff (some ⟨"keras.models", "add", []⟩),
  .atom [] ["model"] .pureEff (some ⟨"keras.layers", "Flatten", []⟩),
  .atom [] ["model"] .pureEff (some ⟨"keras.layers", "Dense", ["activation"]⟩),
  .atom [] ["model"] .pureEff
    (some ⟨"keras.models", "compile", ["optimizer", "loss", "metrics"]⟩),
  .atom [] ["model"] .stdout (some ⟨"builtins", "print", []⟩),
  .atom [] ["model", "padded_docs", "labels"] .pureEff
    (some ⟨"keras.models", "fit", ["epochs", "verbose"]⟩),
  .atom ["loss", "accuracy"] ["model", "padded_docs", "labels"] .pureEff
    (some ⟨"keras.models", "evaluate", ["verbose"]⟩),
  .atom [] ["accuracy"] .stdout (some ⟨"builtins", "print", []⟩)]

/-- The Keras word-embedding notebook, modelled by its two complete listings (the
fragment cells earlier in the notebook repeat statements of the listings) and the
code cell holding the first line of the GloVe text file, which is not executable
code. -/
def kerasDoc : Doc :=
  ⟨"how_to_use_word_embedding_layers_for_deep_learning_with_keras",
   ["numpy", "keras.preprocessing.text", "keras.preprocessing.sequence",
    "keras.models", "keras.layers"],
   kerasCell1 ++
   [.formulaCell "the -0.038194 -0.24487 0.72812 -0.39961 0.083172 ..."] ++
   kerasCell2⟩

/-- The repository: its four documents. -/
def repoDocs : List Doc := [pipelinesDoc, rDoc, tbpttDoc, kerasDoc]

/-! ## Semantic embedding of the GloVe loading loop

The loop of the pre-trained-GloVe listing is

```
for line in f:
    values = line.split()
    word = values[0]
    coefs = asarray(values[1:], dtype='float32')
    embeddings_index[word] = coefs
```

A line is modelled as a `String`, `line.split()` as splitting on whitespace and
dropping empty tokens, the coefficient array as the list of its source tokens
(`asarray` is the delegated numeric conversion; the repository's own logic never
inspects the numbers), and the dictionary as an association list with Python's
dict-assignment semantics: assignment to an existing key replaces its value in
place, assignment to a new key appends it. -/

/-- Whitespace, for the purposes of `line.split()`. -/
def isWs (c : Char) : Bool := c = ' ' || c = '\t'

/-- Splitting a character list on whitespace, accumulating the current token in
reverse; runs of whitespace produce no empty tokens. -/
def splitWsAux : List Char → List Char → List (List Char)
  | [], acc => if acc.isEmpty then [] else [acc.reverse]
  | c :: cs, acc =>
    if isWs c then
      if acc.isEmpty then splitWsAux cs [] else acc.reverse :: splitWsAux cs []
    else splitWsAux cs (c :: acc)

/-- Python's `line.split()`: split on whitespace, no empty tokens (so a blank
line yields the empty token list). -/
def pySplit (s : String) : List String :=
  (splitWsAux s.toList []).map fun cs => String.mk cs

/-- An exception raised by a repository statement: the text names the raising
statement of the source. -/
inductive PyError where
  | indexErrorAt (stmt : String)

/-- `values = line.split(); word = values[0]; coefs = asarray(values[1:])`:
on a line with no tokens, `values[0]` raises IndexError. -/
def parseGloveLine (line : String) : Except PyError (String × List String) :=
  match pySplit line with
  | [] => .error (.indexErrorAt "word = values[0]")
  | w :: rest => .ok (w, rest)

/-- The in-memory `embeddings_index` dictionary. -/
abbrev GloveDict := List (String × List String)

/-- Python dict assignment `d[k] = v`: replace the value of an existing key in
place, append a new key at the end. -/
def dictAssign : GloveDict → String → List String → GloveDict
  | [], k, v => [(k, v)]
  | p :: rest, k, v => if p.1 = k then (k, v) :: rest else p :: dictAssign rest k v

/-- Python dict lookup `d.get(k)`. -/
def dictFetch (d : GloveDict) (k : String) : Option (List String) :=
  (d.find? fun p => p.1 == k).map fun p => p.2

/-- One pass of the GloVe loading loop from dictionary state `d` over the remaining
lines: each iteration splits the line, takes `values[0]` as the word, the remaining
tokens as the coefficients, and assigns `embeddings_index[word] = coefs`; the
IndexError of `values[0]` on a token-less line aborts the loop and propagates. -/
def loadFrom (d : GloveDict) : List String → Except PyError GloveDict
  | [] => .ok d
  | line :: rest =>
    match parseGloveLine line with
    | .error e => .error e
    | .ok (w, coefs) => loadFrom (dictAssign d w coefs) rest

/-- The GloVe loading loop over the lines of the file, starting from the empty
dictionary `embeddings_index = dict()`. -/
def loadEmbeddings (lines : List String) : Except PyError GloveDict :=
  loadFrom [] lines

/-- The loading loop restricted to lines that parse (token-less lines skipped);
`loadEmbeddings` agrees with it whenever every line has at least one token. -/
def loadOkFrom (d : GloveDict) : List String → GloveDict
  | [] => d
  | line :: rest =>
    match pySplit line with
    | [] => loadOkFrom d rest
    | w :: coefs => loadOkFrom (dictAssign d w coefs) rest

/-- `loadOkFrom` from the empty dictionary. -/
def loadOk (lines : List String) : GloveDict :=
  loadOkFrom [] lines

/-- First whitespace-separated token of a line, if any. -/
def firstTok (line : String) : Option String := (pySplit line).head?

/-- Tokens of a line after the first. -/
def tailToks (line : String) : List String := (pySplit line).tail

/-- The coefficient tokens of the last line of the file whose first token is `w`. -/
def lastOcc (lines : List String) (w : String) : Option (List String) :=
  ((lines.filter fun line => firstTok line = some w).getLast?).map tailToks

/-- The distinct elements of a list, first occurrences kept in order. -/
def distinctFold (l : List String) : List String :=
  l.foldl (fun acc x => if x ∈ acc then acc else acc ++ [x]) []

/-! ## Semantic embedding of the weight-matrix construction loop

```
embedding_matrix = zeros((vocab_size, 100))
for word, i in t.word_index.items():
    embedding_vector = embeddings_index.get(word)
    if embedding_vector is not None:
        embedding_matrix[i] = embedding_vector
```

The matrix is modelled as a list of rows over an arbitrary row type `α` (the
repository's loop only moves rows, never computes with their entries), the
`word_index` dictionary as an association list of words and indices, and
`embeddings_index.get` as a function into `Option α`. -/

/-- One pass of the construction loop over the remaining `(word, i)` items of the
word index, from matrix state `m`: overwrite row `i` with the embedding vector of
`word` when `embeddings_index.get(word)` is not `None`, leave the matrix unchanged
otherwise. -/
def fillMatrix {α : Type} (emb : String → Option α) :
    List (String × Nat) → List α → List α
  | [], m => m
  | p :: rest, m =>
    match emb p.1 with
    | some v => fillMatrix emb rest (m.set p.2 v)
    | none => fillMatrix emb rest m

/-- The weight-matrix construction loop: start from `zeros((rows, 100))`, modelled
as `rows` copies of the zero row, and run the loop over the word index. -/
def buildMatrix {α : Type} (rows : Nat) (zeroRow : α)
    (wi : List (String × Nat)) (emb : String → Option α) : List α :=
  fillMatrix emb wi (List.replicate rows zeroRow)

/-- Every index written by the construction loop stays below `rows`. -/
def writesInBounds (rows : Nat) (wi : List (String × Nat)) : Bool :=
  wi.all fun p => p.2 < rows

/-- The `word_index` the Tokenizer assigns to the ten documents of the notebook,
read off the notebook's own printed `encoded_docs`
`[[6, 2], [3, 1], [7, 4], [8, 1], [9], [10], [5, 4], [11, 3], [5, 1], [12, 13, 2, 14]]`
for
`['Well done!', 'Good work', 'Great effort', 'nice work', 'Excellent!', 'Weak',
'Poor effort!', 'not good', 'poor work', 'Could have done better.']`. -/
def kerasWordIndex : List (String × Nat) :=
  [("work", 1), ("done", 2), ("good", 3), ("effort", 4), ("poor", 5),
   ("well", 6), ("great", 7), ("nice", 8), ("excellent", 9), ("weak", 10),
   ("not", 11), ("could", 12), ("have", 13), ("better", 14)]

/-- No document writes a file location that any other document reads: for every
ordered pair of distinct documents, the file-write targets of the first are
disjoint from the read targets of the second. -/
def noInterference (ds : List Doc) : Bool :=
  ds.enum.all fun a => ds.enum.all fun b =>
    a.1 == b.1 ||
      (Doc.fileWriteTargets a.2).all fun t => !((Doc.readTargets b.2).contains t)

/-- Python modules that would introduce concurrency coordination. -/
def concurrencyModules : List String :=
  ["threading", "multiprocessing", "asyncio", "concurrent.futures"]

/-! ## Supporting lemmas on the dictionary operations -/

theorem dictFetch_assign_self (d : GloveDict) (k : String) (v : List String) :
    dictFetch (dictAssign d k v) k = some v := by
  induction d with
  | nil => simp [dictAssign, dictFetch, List.find?]
  | cons p rest ih =>
    by_cases h : p.1 = k
    · simp [dictAssign, h, dictFetch, List.find?_cons]
    · simpa [dictAssign, h, dictFetch, List.find?_cons] using ih

theorem dictFetch_assign_ne (d : GloveDict) (k w : String) (v : List String)
    (hw : w ≠ k) : dictFetch (dictAssign d k v) w = dictFetch d w := by
  induction d with
  | nil =>
    have hkw : (k == w) = false := by simp [Ne.symm hw]
    simp [dictAssign, dictFetch, List.find?, hkw]
  | cons p rest ih =>
    by_cases h : p.1 = k
    · simp [dictAssign, h, dictFetch, List.find?_cons, Ne.symm hw]
    · by_cases hpw : p.1 = w
      · simp [dictAssign, h, dictFetch, List.find?_cons, hpw, hw]
      · simpa [dictAssign, h, dictFetch, List.find?_cons, hpw] using ih

theorem dictAssign_keys (d : GloveDict) (k : String) (v : List String) :
    (dictAssign d k v).map Prod.fst =
      if k ∈ d.map Prod.fst then d.map Prod.fst else d.map Prod.fst ++ [k] := by
  induction d with
  | nil => simp [dictAssign]
  | cons p rest ih =>
    by_cases h : p.1 = k
    · simp [dictAssign, h]
    · simp only [dictAssign, if_neg h, List.map_cons, ih]
      by_cases hm : k ∈ rest.map Prod.fst
      · rw [if_pos hm, if_pos (by simp [hm])]
      · rw [if_neg hm, if_neg (by simp [hm, Ne.symm h]), List.cons_append]

/-! ## Supporting lemmas on the loading loop -/

theorem loadOkFrom_concat (d : GloveDict) (lines : List String) (l : String) :
    loadOkFrom d (lines ++ [l]) =
      match pySplit l with
      | [] => loadOkFrom d lines
      | w :: coefs => dictAssign (loadOkFrom d lines) w coefs := by
  induction lines generalizing d with
  | nil => cases hl : pySplit l <;> simp [loadOkFrom, hl]
  | cons x rest ih => cases hx : pySplit x <;> simp [loadOkFrom, hx, ih]

theorem loadFrom_eq_ok (lines : List String) :
    ∀ d : GloveDict, (∀ l ∈ lines, pySplit l ≠ []) →
      loadFrom d lines = .ok (loadOkFrom d lines) := by
  induction lines with
  | nil => intro d _; rfl
  | cons line rest ih =>
    intro d h
    cases hs : pySplit line with
    | nil => exact absurd hs (h line (List.mem_cons_self line rest))
    | cons w coefs =>
      simpa [loadFrom, parseGloveLine, hs, loadOkFrom] using
        ih (dictAssign d w coefs) fun l hl => h l (List.mem_cons_of_mem line hl)

theorem distinctFold_concat (l : List String) (x : String) :
    distinctFold (l ++ [x]) =
      if x ∈ distinctFold l then distinctFold l else distinctFold l ++ [x] := by
  simp [distinctFold, List.foldl_append]

theorem distinctFold_nodup (l : List String) : (distinctFold l).Nodup := by
  induction l using List.reverseRecOn with
  | nil => simp [distinctFold]
  | append_singleton lines x ih =>
    rw [distinctFold_concat]
    by_cases hx : x ∈ distinctFold lines
    · simpa [hx] using ih
    · rw [if_neg hx, ← List.concat_eq_append]
      exact ih.concat hx

theorem mem_distinctFold (l : List String) (a : String) :
    a ∈ distinctFold l ↔ a ∈ l := by
  induction l using List.reverseRecOn with
  | nil => simp [distinctFold]
  | append_singleton lines x ih =>
    rw [distinctFold_concat]
    by_cases hx : x ∈ distinctFold lines
    · rw [if_pos hx]
      constructor
      · intro ha; exact List.mem_append_left _ (ih.mp ha)
      · intro ha
        rcases List.mem_append.mp ha with ha | ha
        · exact ih.mpr ha
        · rw [List.mem_singleton.mp ha]; exact hx
    · rw [if_neg hx]
      simp [ih]

theorem loadOk_keys (lines : List String) :
    (loadOk lines).map Prod.fst = distinctFold (lines.filterMap firstTok) := by
  rw [loadOk]
  induction lines using List.reverseRecOn with
  | nil => rfl
  | append_singleton ls l ih =>
    rw [loadOkFrom_concat, List.filterMap_append]
    cases hl : pySplit l with
    | nil =>
      have : firstTok l = none := by simp [firstTok, hl]
      simpa [this] using ih
    | cons w coefs =>
      have : firstTok l = some w := by simp [firstTok, hl]
      simp only [this, List.filterMap_cons, List.filterMap_nil, distinctFold_concat]
      rw [dictAssign_keys, ih]

theorem loadOk_lookup (lines : List String) (w : String) :
    dictFetch (loadOk lines) w = lastOcc lines w := by
  rw [loadOk]
  induction lines using List.reverseRecOn with
  | nil => rfl
  | append_singleton ls l ih =>
    rw [loadOkFrom_concat]
    cases hl : pySplit l with
    | nil =>
      have hft : firstTok l = none := by simp [firstTok, hl]
      have : lastOcc (ls ++ [l]) w = lastOcc ls w := by
        simp [lastOcc, List.filter_append, hft]
      rw [this]
      exact ih
    | cons w' coefs =>
      have hft : firstTok l = some w' := by simp [firstTok, hl]
      by_cases hw : w = w'
      · subst hw
        rw [dictFetch_assign_self]
        have : (ls ++ [l]).filter (fun line => firstTok line = some w) =
            ls.filter (fun line => firstTok line = some w) ++ [l] := by
          simp [List.filter_append, hft]
        simp [lastOcc, this, List.getLast?_concat, tailToks, hl]
      · rw [dictFetch_assign_ne _ _ _ _ hw]
        have : (ls ++ [l]).filter (fun line => firstTok line = some w) =
            ls.filter (fun line => firstTok line = some w) := by
          simp [List.filter_append, hft, Ne.symm hw]
        rw [lastOcc, this, ← lastOcc]
        exact ih

/-! ## Supporting lemmas on the weight-matrix construction loop -/

theorem fillMatrix_length {α : Type} (emb : String → Option α)
    (wi : List (String × Nat)) :
    ∀ m : List α, (fillMatrix emb wi m).length = m.length := by
  induction wi with
  | nil => intro m; rfl
  | cons p rest ih =>
    intro m
    cases he : emb p.1 <;> simp [fillMatrix, he, ih]

theorem fillMatrix_getElem_untouched {α : Type} (emb : String → Option α)
    (wi : List (String × Nat)) (i : Nat) (h : ∀ p ∈ wi, p.2 ≠ i) :
    ∀ m : List α, (fillMatrix emb wi m)[i]? = m[i]? := by
  induction wi with
  | nil => intro m; rfl
  | cons p rest ih =>
    intro m
    have hrest : ∀ q ∈ rest, q.2 ≠ i := fun q hq => h q (List.mem_cons_of_mem p hq)
    cases he : emb p.1 with
    | none => simp [fillMatrix, he, ih hrest]
    | some v =>
      simp only [fillMatrix, he, ih hrest]
      exact List.getElem?_set_ne (h p (List.mem_cons_self p rest))

theorem fillMatrix_getElem_of_mem {α : Type} (emb : String → Option α)
    (wi : List (String × Nat)) (w : String) (i : Nat)
    (hnd : (wi.map Prod.snd).Nodup) (hmem : (w, i) ∈ wi) :
    ∀ m : List α, i < m.length →
      (fillMatrix emb wi m)[i]? =
        match emb w with
        | some v => some v
        | none => m[i]? := by
  induction wi with
  | nil => cases hmem
  | cons p rest ih =>
    intro m hm
    have hnd' : (rest.map Prod.snd).Nodup := (List.nodup_cons.mp (by simpa using hnd)).2
    rcases List.mem_cons.mp hmem with heq | hrest
    · -- the head item is exactly (w, i); the rest of the loop never touches row i
      have hpi : p.2 = i := by rw [← heq]
      have hw : p.1 = w := by rw [← heq]
      have hnotouch : ∀ q ∈ rest, q.2 ≠ i := by
        intro q hq hqi
        have hni : p.2 ∉ rest.map Prod.snd := (List.nodup_cons.mp (by simpa using hnd)).1
        rw [hpi] at hni
        exact hni (hqi ▸ List.mem_map_of_mem Prod.snd hq)
      cases he : emb w with
      | none =>
        simp [fillMatrix, hw, he, fillMatrix_getElem_untouched emb rest i hnotouch]
      | some v =>
        simp only [fillMatrix, hw, he, hpi,
          fillMatrix_getElem_untouched emb rest i hnotouch]
        exact List.getElem?_set_self hm
    · -- (w, i) is further down; the head writes a different row
      have hpne : p.2 ≠ i := by
        intro hpi
        have hni : p.2 ∉ rest.map Prod.snd := (List.nodup_cons.mp (by simpa using hnd)).1
        exact hni (hpi ▸ List.mem_map_of_mem Prod.snd hrest)
      cases he : emb p.1 with
      | none => simpa [fillMatrix, he] using ih hnd' hrest m hm
      | some v =>
        have hm' : i < (m.set p.2 v).length := by simpa using hm
        cases hw : emb w with
        | none =>
          have := ih hnd' hrest (m.set p.2 v) hm'
          simp only [hw] at this
          simp only [fillMatrix, he, this]
          exact List.getElem?_set_ne hpne
        | some u =>
          have := ih hnd' hrest (m.set p.2 v) hm'
          simp only [hw] at this
          simp [fillMatrix, he, this]

/-! ## The claims -/

/-- C1, counterexample: the claim that every source file performs only a
sequential composition of library calls — no repository-authored iteration,
branching, or parsing — is false: the Keras word-embedding notebook is not
straight-line code (its GloVe loading loop, weight-matrix loop and one_hot
comprehension are repository-authored control flow). -/
theorem claim_c1_counterexample :
    ¬ (∀ d ∈ repoDocs, Doc.straightLine d = true) := by
  intro h
  have hmem : kerasDoc ∈ repoDocs :=
    List.mem_cons_of_mem _ (List.mem_cons_of_mem _
      (List.mem_cons_of_mem _ (List.mem_cons_self _ _)))
  exact absurd (h kerasDoc hmem) (by decide)

/-- C1, amended: every document except the Keras word-embedding notebook is a
straight-line sequence of library calls; that notebook contains exactly three
repository-authored loops (the one_hot comprehension, the GloVe file loading
loop with its `line.split()`/`values[0]` parsing, and the weight-matrix
construction loop) and one branch (the `is not None` check). -/
theorem claim_c1_amended :
    Doc.straightLine pipelinesDoc = true ∧ Doc.straightLine rDoc = true ∧
    Doc.straightLine tbpttDoc = true ∧ Doc.straightLine kerasDoc = false ∧
    stmtsLoopCount kerasDoc.stmts = 3 ∧ stmtsBranchCount kerasDoc.stmts = 1 :=
  ⟨rfl, rfl, rfl, rfl, rfl, rfl⟩

/-- C2, counterexample: the claim that no in-memory object carries an alignment
or consistency requirement maintained by repository code is false for
`embedding_matrix`: whether every write `embedding_matrix[i]` of the
construction loop stays in bounds depends on the repository-chosen row count.
At `rows = len(word_index)` (i.e. without the `+ 1` the repository's own line
`vocab_size = len(t.word_index) + 1` maintains) the loop writes out of bounds
for the word of index 14. -/
theorem claim_c2_counterexample :
    ¬ (∀ rows : Nat, writesInBounds rows kerasWordIndex = true) := fun h =>
  absurd (h 14) (by decide)

/-- C2, amended: the GloVe example builds one custom object, `embedding_matrix`,
whose alignment with the tokenizer's `word_index` is a consistency requirement
maintained by repository code: the repository-maintained relation
`vocab_size = len(t.word_index) + 1` (here 15) is exactly what keeps every loop
write in bounds, and any smaller row count does not. -/
theorem claim_c2_amended :
    writesInBounds (kerasWordIndex.length + 1) kerasWordIndex = true ∧
    writesInBounds kerasWordIndex.length kerasWordIndex = false ∧
    kerasWordIndex.length + 1 = 15 :=
  ⟨by decide, by decide, rfl⟩

/-- C3, counterexample: the claim that every file loads a dataset, calls a
library's high-level API and prints metrics is false for the TBPTT notebook,
whose only code cell is non-executable mathematical formula text: it loads
nothing. -/
theorem claim_c3_counterexample :
    ¬ (∀ d ∈ repoDocs, Doc.loadsData d = true ∧ Doc.callsLibrary d = true ∧
        Doc.printsOutput d = true ∧ Doc.hasExecutableCode d = true) := by
  intro h
  have hmem : tbpttDoc ∈ repoDocs :=
    List.mem_cons_of_mem _ (List.mem_cons_of_mem _ (List.mem_cons_self _ _))
  exact absurd (h tbpttDoc hmem).1 (by decide)

/-- C3, amended: the pipelines notebook, the R-markdown document and the Keras
word-embedding notebook each load their input data, call into library APIs and
print results; the TBPTT notebook contains no executable code at all — its only
code cell is the formula `yhat(t) = f(X(t), X(t-1), X(t-2), ... X(t-n))` — so it
loads no dataset and prints no metric. -/
theorem claim_c3_amended :
    (Doc.loadsData pipelinesDoc = true ∧ Doc.callsLibrary pipelinesDoc = true ∧
      Doc.printsOutput pipelinesDoc = true ∧ Doc.hasExecutableCode pipelinesDoc = true) ∧
    (Doc.loadsData rDoc = true ∧ Doc.callsLibrary rDoc = true ∧
      Doc.printsOutput rDoc = true ∧ Doc.hasExecutableCode rDoc = true) ∧
    (Doc.loadsData kerasDoc = true ∧ Doc.callsLibrary kerasDoc = true ∧
      Doc.printsOutput kerasDoc = true ∧ Doc.hasExecutableCode kerasDoc = true) ∧
    (Doc.hasExecutableCode tbpttDoc = false ∧ Doc.loadsData tbpttDoc = false ∧
      Doc.printsOutput tbpttDoc = false ∧
      tbpttDoc.stmts = [Stmt.formulaCell "yhat(t) = f(X(t), X(t-1), X(t-2), ... X(t-n))"]) :=
  ⟨⟨rfl, rfl, rfl, rfl⟩, ⟨rfl, rfl, rfl, rfl⟩, ⟨rfl, rfl, rfl, rfl⟩, ⟨rfl, rfl, rfl, rfl⟩⟩

/-- C4, counterexample: the claim that no repository code handles errors AND that
every failure is raised by library code (no repository line is itself a raise
site) is false in its second half: on a blank embedding line the GloVe loading
loop's own statement `word = values[0]` raises, so the loop does not return a
dictionary for every input. -/
theorem claim_c4_counterexample :
    ¬ ((∀ d ∈ repoDocs, Doc.errorHandlingFree d = true) ∧
       (∀ lines : List String, ∃ d, loadEmbeddings lines = Except.ok d)) := by
  rintro ⟨-, h⟩
  obtain ⟨d, hd⟩ := h [""]
  rw [show loadEmbeddings [""] =
    Except.error (.indexErrorAt "word = values[0]") from rfl] at hd
  exact Except.noConfusion hd

/-- C4, amended: no repository code catches, transforms or suppresses an error —
there is no `try`/`except` and no `raise` statement anywhere — so failures
propagate uncaught; but one repository line is itself a raise site: on a blank
embedding line the error surfacing is the IndexError of the repository's own
statement `word = values[0]`, not an exception of an imported library. -/
theorem claim_c4_amended :
    repoDocs.all Doc.errorHandlingFree = true ∧
    loadEmbeddings [""] = Except.error (.indexErrorAt "word = values[0]") :=
  ⟨rfl, rfl⟩

/-- C5: under the preconditions that `t.word_index` assigns pairwise distinct
indices lying in `1..len(word_index)` and that the matrix has
`vocab_size = len(word_index) + 1` rows, every write `embedding_matrix[i]` of the
construction loop is in bounds, on termination row `i` holds `embeddings_index`'s
vector for the word of index `i` when that word is a key and the zero row
otherwise, and row 0 is the zero row. -/
theorem claim_c5_embedding_matrix {α : Type} (zeroRow : α)
    (wi : List (String × Nat)) (emb : String → Option α)
    (hnd : (wi.map Prod.snd).Nodup)
    (hrange : ∀ p ∈ wi, 1 ≤ p.2 ∧ p.2 ≤ wi.length) :
    writesInBounds (wi.length + 1) wi = true ∧
    (∀ w i, (w, i) ∈ wi →
      (buildMatrix (wi.length + 1) zeroRow wi emb)[i]? =
        some ((emb w).getD zeroRow)) ∧
    (buildMatrix (wi.length + 1) zeroRow wi emb)[0]? = some zeroRow := by
  refine ⟨?_, ?_, ?_⟩
  · simp only [writesInBounds, List.all_eq_true, decide_eq_true_eq]
    intro p hp
    have := (hrange p hp).2
    omega
  · intro w i hmem
    have hi : i < (List.replicate (wi.length + 1) zeroRow).length := by
      have := (hrange (w, i) hmem).2
      simp only [List.length_replicate]
      omega
    rw [buildMatrix, fillMatrix_getElem_of_mem emb wi w i hnd hmem _ hi]
    cases he : emb w with
    | none =>
      have hlt : i < wi.length + 1 := by
        have := (hrange (w, i) hmem).2; omega
      simp [List.getElem?_replicate, hlt]
    | some v => simp
  · rw [buildMatrix, fillMatrix_getElem_untouched emb wi 0 ?_]
    · simp
    · intro p hp
      have := (hrange p hp).1
      omega

/-- C5, witness: the construction loop applied to the notebook's own
`word_index` (fourteen words of indices 1..14, `vocab_size = 15`) with a stub
embedding index containing only the word `good`. -/
theorem claim_c5_embedding_matrix_witness :
    ((kerasWordIndex.map Prod.snd).Nodup ∧
      ∀ p ∈ kerasWordIndex, 1 ≤ p.2 ∧ p.2 ≤ kerasWordIndex.length) ∧
    (writesInBounds (kerasWordIndex.length + 1) kerasWordIndex = true ∧
      (∀ w i, (w, i) ∈ kerasWordIndex →
        (buildMatrix (kerasWordIndex.length + 1) (List.replicate 100 (0 : Int))
          kerasWordIndex
          (fun w => if w = "good" then some (List.replicate 100 (1 : Int)) else none))[i]? =
          some (((fun w => if w = "good" then some (List.replicate 100 (1 : Int)) else none) w).getD
            (List.replicate 100 (0 : Int)))) ∧
      (buildMatrix (kerasWordIndex.length + 1) (List.replicate 100 (0 : Int))
        kerasWordIndex
        (fun w => if w = "good" then some (List.replicate 100 (1 : Int)) else none))[0]? =
        some (List.replicate 100 (0 : Int))) :=
  ⟨⟨by decide, by decide⟩,
    claim_c5_embedding_matrix (List.replicate 100 (0 : Int)) kerasWordIndex
      (fun w => if w = "good" then some (List.replicate 100 (1 : Int)) else none)
      (by decide) (by decide)⟩

/-- C6: the only externally observable effects of any document are reads of the
pima-indians-diabetes CSV URL, reads of the GloVe embedding text file
`glove.6B.100d.txt`, and textual stdout output; no statement writes a file. -/
theorem claim_c6_effects :
    repoDocs.all (fun d => (Doc.effects d).all fun e =>
      match e with
      | .stdout => true
      | .pureEff => true
      | .readsFile p => p == "glove.6B.100d.txt"
      | .readsUrl u => u == pimaUrl
      | .writesFile _ => false) = true := rfl

/-- C7: no document writes any file location, hence no document writes a
location any other document reads: each document's printed output is a function
of its own inputs only. -/
theorem claim_c7_independence :
    noInterference repoDocs = true ∧
    repoDocs.all (fun d => (Doc.fileWriteTargets d).isEmpty) = true :=
  ⟨rfl, rfl⟩

/-- C8: on an embedding file containing a blank line, the GloVe loading loop
raises the IndexError of `word = values[0]` rather than skipping the line (the
skipping variant of the loop would have produced a dictionary of both parseable
lines): the line-parsing step is not total over arbitrary text files. -/
theorem claim_c8_blank_line :
    loadEmbeddings ["the 0.1 0.2", "", "a 0.3 0.4"] =
      Except.error (.indexErrorAt "word = values[0]") ∧
    loadOk ["the 0.1 0.2", "", "a 0.3 0.4"] =
      [("the", ["0.1", "0.2"]), ("a", ["0.3", "0.4"])] :=
  ⟨rfl, rfl⟩

/-- C9: on any embedding file whose lines all carry at least one token, the
loading loop succeeds and builds the dictionary in which each first token maps to
the coefficient tokens of its last occurrence in the file, and whose size — the
printed count of loaded word vectors — is the number of distinct first tokens,
which the two-line file `a 1.0 / a 2.0` shows can be strictly smaller than the
number of lines. -/
theorem claim_c9_last_occurrence_wins (lines : List String)
    (h : ∀ l ∈ lines, pySplit l ≠ []) :
    loadEmbeddings lines = Except.ok (loadOk lines) ∧
    (∀ w, dictFetch (loadOk lines) w = lastOcc lines w) ∧
    (loadOk lines).length = (distinctFold (lines.filterMap firstTok)).length ∧
    (loadOk ["a 1.0", "a 2.0"]).length = 1 ∧
    (["a 1.0", "a 2.0"] : List String).length = 2 := by
  refine ⟨loadFrom_eq_ok lines [] h, fun w => loadOk_lookup lines w, ?_, rfl, rfl⟩
  calc (loadOk lines).length = ((loadOk lines).map Prod.fst).length :=
        (List.length_map _ _).symm
    _ = (distinctFold (lines.filterMap firstTok)).length := by rw [loadOk_keys]

/-- C9, witness: the loop on the three-line file `the 1 2 / a 3 / the 4 5`. -/
theorem claim_c9_last_occurrence_wins_witness :
    (∀ l ∈ ["the 1 2", "a 3", "the 4 5"], pySplit l ≠ []) ∧
    (loadEmbeddings ["the 1 2", "a 3", "the 4 5"] =
        Except.ok (loadOk ["the 1 2", "a 3", "the 4 5"]) ∧
      (∀ w, dictFetch (loadOk ["the 1 2", "a 3", "the 4 5"]) w =
        lastOcc ["the 1 2", "a 3", "the 4 5"] w) ∧
      (loadOk ["the 1 2", "a 3", "the 4 5"]).length =
        (distinctFold ((["the 1 2", "a 3", "the 4 5"] : List String).filterMap firstTok)).length ∧
      (loadOk ["a 1.0", "a 2.0"]).length = 1 ∧
      (["a 1.0", "a 2.0"] : List String).length = 2) :=
  ⟨by decide, claim_c9_last_occurrence_wins ["the 1 2", "a 3", "the 4 5"] (by decide)⟩

/-- C10: no call site of any document passes `n_jobs` or `timeout` keyword
arguments (in particular `cross_val_score` is called with `cv` only, requesting
no parallel jobs), and no document imports a concurrency module: every example
is a single-threaded synchronous run. -/
theorem claim_c10_no_concurrency :
    repoDocs.all (fun d =>
      (Doc.allKwargs d).all (fun k => !(k == "n_jobs") && !(k == "timeout")) &&
      d.imports.all (fun m => !(concurrencyModules.contains m))) = true := rfl

end AppliedML
